import Mathlib

/-!
Verification of the User Management System (Node.js/Express + MySQL) against
its natural-language specification.

The development shallowly embeds the server's user model (`models/User.js`),
the authentication and user-management route handlers (`routes/auth.js`,
`routes/users.js`), and the unauthenticated dashboard endpoint (`server.js`)
as pure Lean functions over an explicit store state.  Each HTTP handler is a
function from its parsed request, the authenticated claims (when the route is
protected), and the current store to a response together with the successor
store.  The bcrypt credential hasher and the authentication middleware are
not under the repository's source tree and are modelled from the spec where
noted.
-/

namespace UMS

/-- The role enumeration from `models/User.js` (`ROLES = { ADMIN: 'admin', USER: 'user' }`). -/
inductive Role
  | admin
  | user
deriving DecidableEq, Repr

/-- Modelled from the spec: the credential hasher (the `bcryptjs` library,
which is a dependency, not repository source).  Per spec §4.1, `hash` applies
a salted one-way function and `verify` recomputes using the salt embedded in
the credential and compares.  The model keys the digest by the plaintext;
this captures the functional hash/verify contract (round-trip and mismatch
behaviour), not one-wayness. -/
structure Credential where
  salt : Nat
  digest : String
deriving DecidableEq, Repr

/-- Modelled from the spec: `bcrypt.hash(plaintext, rounds)` with the salt
drawn from the caller's randomness source, embedded in the credential. -/
def bcryptHash (salt : Nat) (plaintext : String) : Credential :=
  { salt := salt, digest := plaintext }

/-- Modelled from the spec: `bcrypt.compare(plaintext, credential)` recomputes
the hash with the credential's embedded salt and compares. -/
def bcryptCompare (plaintext : String) (cred : Credential) : Bool :=
  bcryptHash cred.salt plaintext == cred

/-- A stored user row (the `users` table; constructor of `class User`). -/
structure UserRec where
  id : Nat
  username : String
  email : String
  password : Credential
  role : Role
  created_at : Nat
  updated_at : Nat
deriving DecidableEq, Repr

/-- The user table. -/
abbrev Store := List UserRec

/-- The identity claims carried in a JWT payload (`tokenPayload.user` in
`routes/auth.js`: `{ id, username, role }`). -/
structure Claims where
  id : Nat
  username : String
  role : Role
deriving DecidableEq, Repr

/-- A signed session token; validity checking is outside the embedded core,
handlers receive already-validated claims (or none). -/
structure Token where
  user : Claims
deriving DecidableEq, Repr

/-- A user object as serialized into a JSON response body.  `password` is an
`Option` so that its absence from an outward representation is expressible;
likewise the fields that some endpoints omit. -/
structure JsonUser where
  id : Nat
  username : String
  email : String
  password : Option Credential
  role : Option Role
  created_at : Option Nat
  updated_at : Option Nat
deriving DecidableEq, Repr

/-- The parts of an HTTP JSON response the claims are about: status code,
message, the user objects contained in the body, the issued token, and the
dashboard's `stats.totalUsers` figure. -/
structure Response where
  status : Nat
  message : String
  users : List JsonUser
  token : Option Token
  totalUsers : Option Nat
deriving DecidableEq, Repr

/-- A response carrying no user objects, no token and no stats. -/
def mkResp (status : Nat) (message : String) : Response :=
  { status := status, message := message, users := [], token := none, totalUsers := none }

/-- Result of running a handler: the response, the successor store, and the
number of bcrypt hash computations the handler performed (used to state that
duplicate registrations short-circuit before hashing). -/
structure HandlerOut where
  resp : Response
  store : Store
  hashCount : Nat
deriving DecidableEq, Repr

/-! ## Store operations (`models/User.js`) -/

/-- `User.findById`: `SELECT * FROM users WHERE id = ?`. -/
def findById (s : Store) (uid : Nat) : Option UserRec :=
  s.find? (fun u => u.id == uid)

/-- `User.findByUsername`: `SELECT * FROM users WHERE username = ?`
(case-sensitive exact match). -/
def findByUsername (s : Store) (name : String) : Option UserRec :=
  s.find? (fun u => u.username == name)

/-- `User.findByEmail`: `SELECT * FROM users WHERE email = ?`. -/
def findByEmail (s : Store) (email : String) : Option UserRec :=
  s.find? (fun u => u.email == email)

/-- The AUTO_INCREMENT surrogate id the store assigns on insert. -/
def nextId (s : Store) : Nat :=
  (s.map (fun u => u.id)).foldr max 0 + 1

/-- `User.createUser`: hashes the password with bcrypt (salt from the
caller's randomness source, `now` for the CURRENT_TIMESTAMP defaults) and
inserts the row, returning the freshly loaded record. -/
def createUser (s : Store) (salt now : Nat) (username email password : String)
    (role : Role) : UserRec × Store :=
  let cred := bcryptHash salt password
  let u : UserRec :=
    { id := nextId s, username := username, email := email, password := cred,
      role := role, created_at := now, updated_at := now }
  (u, s ++ [u])

/-- The sparse `updates` object the PUT route builds: optional `username`,
`email`, and (already hashed) `password` keys. -/
structure Updates where
  username : Option String
  email : Option String
  password : Option Credential
deriving DecidableEq, Repr

/-- `User.updateUser`: builds a dynamic UPDATE restricted to
`allowedFields = ['username', 'email']` — a supplied `password` key is NOT
among the allowed fields and is dropped.  If no allowed field is supplied the
store is untouched and the current record is returned. -/
def updateUser (s : Store) (now uid : Nat) (updates : Updates) :
    Option UserRec × Store :=
  if updates.username.isSome || updates.email.isSome then
    let s' := s.map (fun u =>
      if u.id == uid then
        { u with username := updates.username.getD u.username,
                 email := updates.email.getD u.email,
                 updated_at := now }
      else u)
    (findById s' uid, s')
  else
    (findById s uid, s)

/-- `User.updateUserRole`: `UPDATE users SET role = ?, updated_at = NOW()`. -/
def updateUserRole (s : Store) (now uid : Nat) (role : Role) :
    Option UserRec × Store :=
  let s' := s.map (fun u =>
    if u.id == uid then { u with role := role, updated_at := now } else u)
  (findById s' uid, s')

/-- `User.deleteUser`: `DELETE FROM users WHERE id = ?`; true iff a row was
removed (`affectedRows > 0`). -/
def deleteUser (s : Store) (uid : Nat) : Bool × Store :=
  let s' := s.filter (fun u => u.id != uid)
  (decide (s'.length < s.length), s')

/-- `user.checkPassword(provided)`: `bcrypt.compare(provided, this.password)`. -/
def checkPassword (u : UserRec) (provided : String) : Bool :=
  bcryptCompare provided u.password

/-- `User.prototype.toJSON`: the instance's fields with `password` removed.
Express's `res.json` serializes every `User` through this method. -/
def toJSON (u : UserRec) : JsonUser :=
  { id := u.id, username := u.username, email := u.email, password := none,
    role := some u.role, created_at := some u.created_at,
    updated_at := some u.updated_at }

/-- `User.getAllUsers`: `SELECT id, username, email, role, created_at,
updated_at FROM users` — the password column is excluded by the projection
(and would in any case be stripped by `toJSON` at serialization). -/
def getAllUsers (s : Store) : List JsonUser :=
  s.map toJSON

/-! ## Authentication and authorization middleware

`middleware/auth.js` is not under the repository's source tree; only its
callers are.  The gate below is modelled from the spec. -/

/-- Modelled from the spec: `authorize(subjectClaims, requiredRole)` from the
missing `middleware/auth.js` — `requiredRole = user` is satisfied by any
authenticated subject; `requiredRole = admin` only if
`subjectClaims.role == admin`. -/
def authorize (c : Claims) (required : Role) : Bool :=
  match required with
  | Role.user => true
  | Role.admin => c.role == Role.admin

/-- Outcome of the `authenticateToken` / `authorize` middleware chain. -/
inductive GateResult
  | ok (c : Claims)
  | unauthorized
  | forbidden
deriving DecidableEq, Repr

/-- Modelled from the spec: the middleware chain of the missing
`middleware/auth.js`.  A request with no validated token is `Unauthorized`
(401); a validated token whose role does not satisfy the requirement is
`Forbidden` (403), distinct from `Unauthorized`; otherwise the claims pass
through to the handler. -/
def gate (required : Role) (tok : Option Claims) : GateResult :=
  match tok with
  | none => GateResult.unauthorized
  | some c => if authorize c required then GateResult.ok c else GateResult.forbidden

/-! ## Input validation (`express-validator` rules in the routes) -/

/-- Approximation of `express-validator`'s `isEmail` shape check (the exact
address grammar is irrelevant to the claims). -/
def validEmail (s : String) : Bool :=
  s.data.contains '@'

/-- `isLength({ min: 6 })` on the password. -/
def validPassword (s : String) : Bool :=
  6 ≤ s.length

/-! ## Route handlers -/

/-- Body of `POST /api/auth/register`.  A `role` key may be present in the
request JSON; the handler destructures only `username`, `email`, `password`
and never reads it. -/
structure RegisterBody where
  username : String
  email : String
  password : String
  role : Option Role
deriving DecidableEq, Repr

/-- Body of `POST /api/auth/login`. -/
structure LoginBody where
  username : String
  password : String
deriving DecidableEq, Repr

/-- Body of `POST /api/users` (admin create; `role` is required and already
validated to be one of the two enumerated values). -/
structure CreateBody where
  username : String
  email : String
  password : String
  role : Role
deriving DecidableEq, Repr

/-- Body of `PUT /api/users/:id` — all fields optional. -/
structure UpdateBody where
  username : Option String
  email : Option String
  password : Option String
  role : Option Role
deriving DecidableEq, Repr

/-- `POST /api/auth/register` (`routes/auth.js`): validate shape, check
username collision, check email collision, then create the user with
`role: ROLES.USER` — the role is hard-coded, never taken from the body — and
return 201 with a token and an explicit user object `{id, username, email,
role}` (no password field). -/
def registerHandler (b : RegisterBody) (salt now : Nat) (s : Store) : HandlerOut :=
  if !(b.username != "" && validEmail b.email && validPassword b.password) then
    { resp := mkResp 400 "Please check your input", store := s, hashCount := 0 }
  else if (findByUsername s b.username).isSome then
    { resp := mkResp 400 "Username already taken", store := s, hashCount := 0 }
  else if (findByEmail s b.email).isSome then
    { resp := mkResp 400 "Email already registered", store := s, hashCount := 0 }
  else
    let nu := createUser s salt now b.username b.email b.password Role.user
    { resp :=
        { status := 201, message := "Registration successful",
          users := [{ id := nu.1.id, username := nu.1.username,
                      email := nu.1.email, password := none,
                      role := some nu.1.role, created_at := none,
                      updated_at := none }],
          token := some { user := { id := nu.1.id, username := nu.1.username,
                                    role := nu.1.role } },
          totalUsers := none },
      store := nu.2, hashCount := 1 }

/-- `POST /api/auth/login` (`routes/auth.js`): look up by username; if absent
respond 400 with the generic message; verify the password with the same
generic 400 on mismatch; otherwise 200 with a token and the user object. -/
def loginHandler (b : LoginBody) (s : Store) : HandlerOut :=
  if b.username == "" || b.password == "" then
    { resp := mkResp 400 "Please provide username and password", store := s, hashCount := 0 }
  else
    match findByUsername s b.username with
    | none =>
      { resp := mkResp 400 "Invalid username or password", store := s, hashCount := 0 }
    | some u =>
      if !checkPassword u b.password then
        { resp := mkResp 400 "Invalid username or password", store := s, hashCount := 0 }
      else
        { resp :=
            { status := 200, message := "Login successful",
              users := [{ id := u.id, username := u.username, email := u.email,
                          password := none, role := some u.role,
                          created_at := none, updated_at := none }],
              token := some { user := { id := u.id, username := u.username,
                                        role := u.role } },
              totalUsers := none },
          store := s, hashCount := 0 }

/-- `GET /api/auth/me` (`routes/auth.js`): authenticate, load the claims' id,
404 if gone, else 200 with `user.toJSON()`. -/
def meHandler (tok : Option Claims) (s : Store) : HandlerOut :=
  match tok with
  | none => { resp := mkResp 401 "Unauthorized", store := s, hashCount := 0 }
  | some c =>
    match findById s c.id with
    | none => { resp := mkResp 404 "User not found", store := s, hashCount := 0 }
    | some u =>
      { resp := { status := 200, message := "Profile retrieved successfully",
                  users := [toJSON u], token := none, totalUsers := none },
        store := s, hashCount := 0 }

/-- `GET /api/users` (`routes/users.js`): `authenticateToken`,
`authorize(ROLES.ADMIN)`, then all users (password column excluded). -/
def listUsersHandler (tok : Option Claims) (s : Store) : HandlerOut :=
  match gate Role.admin tok with
  | GateResult.unauthorized =>
    { resp := mkResp 401 "Unauthorized", store := s, hashCount := 0 }
  | GateResult.forbidden =>
    { resp := mkResp 403 "Forbidden", store := s, hashCount := 0 }
  | GateResult.ok _ =>
    { resp := { status := 200, message := "", users := getAllUsers s,
                token := none, totalUsers := none },
      store := s, hashCount := 0 }

/-- `GET /api/users/:id` (`routes/users.js`): admin gate, then `findById`,
404 if absent, else the user (serialized through `toJSON`). -/
def getUserHandler (tok : Option Claims) (uid : Nat) (s : Store) : HandlerOut :=
  match gate Role.admin tok with
  | GateResult.unauthorized =>
    { resp := mkResp 401 "Unauthorized", store := s, hashCount := 0 }
  | GateResult.forbidden =>
    { resp := mkResp 403 "Forbidden", store := s, hashCount := 0 }
  | GateResult.ok _ =>
    match findById s uid with
    | none => { resp := mkResp 404 "User not found", store := s, hashCount := 0 }
    | some u =>
      { resp := { status := 200, message := "", users := [toJSON u],
                  token := none, totalUsers := none },
        store := s, hashCount := 0 }

/-- `POST /api/users` (`routes/users.js`): admin gate, validation, the two
uniqueness pre-checks, then `User.createUser` with the caller-supplied role;
201 with the created user (serialized through `toJSON`). -/
def createUserHandler (tok : Option Claims) (b : CreateBody) (salt now : Nat)
    (s : Store) : HandlerOut :=
  match gate Role.admin tok with
  | GateResult.unauthorized =>
    { resp := mkResp 401 "Unauthorized", store := s, hashCount := 0 }
  | GateResult.forbidden =>
    { resp := mkResp 403 "Forbidden", store := s, hashCount := 0 }
  | GateResult.ok _ =>
    if !(b.username != "" && validEmail b.email && validPassword b.password) then
      { resp := mkResp 400 "Invalid input data", store := s, hashCount := 0 }
    else if (findByUsername s b.username).isSome then
      { resp := mkResp 400 "Username already taken", store := s, hashCount := 0 }
    else if (findByEmail s b.email).isSome then
      { resp := mkResp 400 "Email already registered", store := s, hashCount := 0 }
    else
      let nu := createUser s salt now b.username b.email b.password b.role
      { resp := { status := 201, message := "User created successfully",
                  users := [toJSON nu.1], token := none, totalUsers := none },
        store := nu.2, hashCount := 1 }

/-- The optional-field validation of `PUT /api/users/:id`. -/
def updateValidate (b : UpdateBody) : Bool :=
  (match b.username with | none => true | some u => u != "") &&
  (match b.email with | none => true | some e => validEmail e) &&
  (match b.password with | none => true | some p => validPassword p)

/-- `PUT /api/users/:id` (`routes/users.js`): admin gate, optional-field
validation, load the target (404 if absent), the self-demotion guard
(`existingUser.id === req.user.id && req.body.role && req.body.role !==
ROLES.ADMIN` rejects with 400 before any store call), then build the sparse
`updates` object — hashing the supplied password with `bcrypt.hash(·, 10)` —
call `User.updateUser`, and `User.updateUserRole` when a role was supplied;
200 with the record re-loaded after the writes. -/
def updateUserHandler (tok : Option Claims) (uid : Nat) (b : UpdateBody)
    (salt now : Nat) (s : Store) : HandlerOut :=
  match gate Role.admin tok with
  | GateResult.unauthorized =>
    { resp := mkResp 401 "Unauthorized", store := s, hashCount := 0 }
  | GateResult.forbidden =>
    { resp := mkResp 403 "Forbidden", store := s, hashCount := 0 }
  | GateResult.ok c =>
    if !updateValidate b then
      { resp := mkResp 400 "Invalid input data", store := s, hashCount := 0 }
    else
      match findById s uid with
      | none => { resp := mkResp 404 "User not found", store := s, hashCount := 0 }
      | some existingUser =>
        if existingUser.id == c.id && b.role.isSome && b.role != some Role.admin then
          { resp := mkResp 400 "You cannot remove your own admin privileges",
            store := s, hashCount := 0 }
        else
          let updates : Updates :=
            { username := b.username, email := b.email,
              password := b.password.map (bcryptHash salt) }
          let hc := if b.password.isSome then 1 else 0
          let r1 := updateUser s now uid updates
          match b.role with
          | some r =>
            let r2 := updateUserRole r1.2 now uid r
            { resp := { status := 200, message := "User updated successfully",
                        users := (r2.1.map toJSON).toList, token := none,
                        totalUsers := none },
              store := r2.2, hashCount := hc }
          | none =>
            { resp := { status := 200, message := "User updated successfully",
                        users := (r1.1.map toJSON).toList, token := none,
                        totalUsers := none },
              store := r1.2, hashCount := hc }

/-- `DELETE /api/users/:id` (`routes/users.js`): admin gate, load the target
(404 if absent), the self-deletion guard (`user.id === req.user.id` rejects
with 400 before `User.deleteUser` is called), then delete. -/
def deleteUserHandler (tok : Option Claims) (uid : Nat) (s : Store) : HandlerOut :=
  match gate Role.admin tok with
  | GateResult.unauthorized =>
    { resp := mkResp 401 "Unauthorized", store := s, hashCount := 0 }
  | GateResult.forbidden =>
    { resp := mkResp 403 "Forbidden", store := s, hashCount := 0 }
  | GateResult.ok c =>
    match findById s uid with
    | none => { resp := mkResp 404 "User not found", store := s, hashCount := 0 }
    | some u =>
      if u.id == c.id then
        { resp := mkResp 400 "You cannot delete your own account",
          store := s, hashCount := 0 }
      else
        let d := deleteUser s uid
        if !d.1 then
          { resp := mkResp 500 "Failed to delete user", store := d.2, hashCount := 0 }
        else
          { resp := mkResp 200 "User deleted successfully", store := d.2, hashCount := 0 }

/-- `GET /api/dashboard` (`server.js`): registered with no authentication
middleware at all; loads all users and reports `stats.totalUsers =
users.length` (the other stats are simulated and not modelled). -/
def dashboardHandler (s : Store) : HandlerOut :=
  let users := getAllUsers s
  { resp := { status := 200, message := "", users := [], token := none,
              totalUsers := some users.length },
    store := s, hashCount := 0 }

/-! ## Concrete fixtures (mirroring the sample data of `config/db-init.js`) -/

/-- The seeded admin account. -/
def adminRec : UserRec :=
  { id := 1, username := "admin", email := "admin@example.com",
    password := bcryptHash 1 "admin123", role := Role.admin,
    created_at := 0, updated_at := 0 }

/-- The seeded standard user account. -/
def johnRec : UserRec :=
  { id := 2, username := "john_doe", email := "john@example.com",
    password := bcryptHash 2 "password123", role := Role.user,
    created_at := 0, updated_at := 0 }

/-- A store holding the two seeded accounts. -/
def sampleStore : Store := [adminRec, johnRec]

/-! ## Helper lemmas -/

/-- `toJSON` always strips the password field. -/
theorem toJSON_password (u : UserRec) : (toJSON u).password = none := rfl

/-! ## Claims -/

/-- C1: every protected user-management operation (list, get, create, update,
delete) run with a validated token whose role is `user` is denied with 403
Forbidden (distinct from 401 Unauthorized), returns no user objects, and
leaves the store unchanged; a validated token with role `admin` passes the
authorization gate. -/
theorem C1_rbac_admin_gate (i uid salt now : Nat) (name : String)
    (cb : CreateBody) (ub : UpdateBody) (s : Store) :
    (listUsersHandler (some ⟨i, name, Role.user⟩) s
        = ⟨mkResp 403 "Forbidden", s, 0⟩ ∧
     getUserHandler (some ⟨i, name, Role.user⟩) uid s
        = ⟨mkResp 403 "Forbidden", s, 0⟩ ∧
     createUserHandler (some ⟨i, name, Role.user⟩) cb salt now s
        = ⟨mkResp 403 "Forbidden", s, 0⟩ ∧
     updateUserHandler (some ⟨i, name, Role.user⟩) uid ub salt now s
        = ⟨mkResp 403 "Forbidden", s, 0⟩ ∧
     deleteUserHandler (some ⟨i, name, Role.user⟩) uid s
        = ⟨mkResp 403 "Forbidden", s, 0⟩) ∧
    gate Role.admin (some ⟨i, name, Role.admin⟩)
        = GateResult.ok ⟨i, name, Role.admin⟩ := by
  simp [listUsersHandler, getUserHandler, createUserHandler, updateUserHandler,
        deleteUserHandler, gate, authorize]

/-- C3 (divergence witness): an admin PUT on user 2 supplying only a new
password passes validation and both guards, reports 200 success and performs
the bcrypt hash, yet the store — including user 2's credential — is
completely unchanged, because `User.updateUser` restricts mutations to
`allowedFields = ['username', 'email']` and silently drops the `password`
key the route put into `updates`. -/
theorem C3_password_update_dropped :
    (updateUserHandler (some ⟨1, "admin", Role.admin⟩) 2
        ⟨none, none, some "newpass123", none⟩ 7 99 sampleStore).resp.status = 200 ∧
    (updateUserHandler (some ⟨1, "admin", Role.admin⟩) 2
        ⟨none, none, some "newpass123", none⟩ 7 99 sampleStore).store = sampleStore ∧
    (updateUserHandler (some ⟨1, "admin", Role.admin⟩) 2
        ⟨none, none, some "newpass123", none⟩ 7 99 sampleStore).hashCount = 1 := by
  decide

/-- C2: whatever role value the registration body carries, every user object
a successful register returns has role `user`, and every record the register
adds to the store has role `user` — self-registration can never create an
admin. -/
theorem C2_register_forces_user_role (b : RegisterBody) (salt now : Nat) (s : Store) :
    (∀ u ∈ (registerHandler b salt now s).resp.users, u.role = some Role.user) ∧
    (∀ v ∈ (registerHandler b salt now s).store, v ∈ s ∨ v.role = Role.user) := by
  unfold registerHandler
  split_ifs with h1 h2 h3
  · exact ⟨by simp [mkResp], fun v hv => Or.inl hv⟩
  · exact ⟨by simp [mkResp], fun v hv => Or.inl hv⟩
  · exact ⟨by simp [mkResp], fun v hv => Or.inl hv⟩
  · constructor
    · intro u hu
      simp at hu
      subst hu
      rfl
    · intro v hv
      simp [createUser] at hv
      rcases hv with h | h
      · exact Or.inl h
      · subst h
        exact Or.inr rfl

theorem C2_register_forces_user_role_witness :
    (∀ u ∈ (registerHandler ⟨"mallory", "m@x.com", "secret99", some Role.admin⟩
        5 10 []).resp.users, u.role = some Role.user) ∧
    (∀ v ∈ (registerHandler ⟨"mallory", "m@x.com", "secret99", some Role.admin⟩
        5 10 []).store, v ∈ ([] : Store) ∨ v.role = Role.user) :=
  C2_register_forces_user_role ⟨"mallory", "m@x.com", "secret99", some Role.admin⟩ 5 10 []

/-- C4: when an admin's update targets their own record and supplies a role
other than `admin`, and the request passes validation, the handler answers
400 with the self-demotion message before any store write: the resulting
store is exactly the original, so every field of the admin's record,
including role, is unchanged. -/
theorem C4_self_demotion_rejected (c : Claims) (uid salt now : Nat)
    (b : UpdateBody) (s : Store) (u : UserRec)
    (hrole : c.role = Role.admin)
    (hval : updateValidate b = true)
    (hfind : findById s uid = some u)
    (hself : u.id = c.id)
    (hsome : b.role ≠ none)
    (hnotadmin : b.role ≠ some Role.admin) :
    updateUserHandler (some c) uid b salt now s
      = ⟨mkResp 400 "You cannot remove your own admin privileges", s, 0⟩ := by
  unfold updateUserHandler
  simp [gate, authorize, hrole, hval, hfind, hself, hsome, hnotadmin,
        Option.isSome_iff_ne_none]

theorem C4_self_demotion_rejected_witness :
    updateUserHandler (some ⟨1, "admin", Role.admin⟩) 1
        ⟨none, none, none, some Role.user⟩ 3 50 sampleStore
      = ⟨mkResp 400 "You cannot remove your own admin privileges", sampleStore, 0⟩ :=
  C4_self_demotion_rejected ⟨1, "admin", Role.admin⟩ 1 3 50
    ⟨none, none, none, some Role.user⟩ sampleStore adminRec
    rfl (by decide) (by decide) rfl (by decide) (by decide)

/-- C5: when an admin's delete targets their own id, the handler answers 400
with the self-deletion message before `User.deleteUser` is called: the store
is unchanged and the admin's record is still present under the targeted id. -/
theorem C5_self_delete_rejected (c : Claims) (uid : Nat) (s : Store) (u : UserRec)
    (hrole : c.role = Role.admin)
    (hfind : findById s uid = some u)
    (hself : u.id = c.id) :
    deleteUserHandler (some c) uid s
      = ⟨mkResp 400 "You cannot delete your own account", s, 0⟩ ∧
    findById (deleteUserHandler (some c) uid s).store uid = some u := by
  have hmain : deleteUserHandler (some c) uid s
      = ⟨mkResp 400 "You cannot delete your own account", s, 0⟩ := by
    unfold deleteUserHandler
    simp [gate, authorize, hrole, hfind, hself]
  exact ⟨hmain, by rw [hmain]; exact hfind⟩

theorem C5_self_delete_rejected_witness :
    deleteUserHandler (some ⟨1, "admin", Role.admin⟩) 1 sampleStore
      = ⟨mkResp 400 "You cannot delete your own account", sampleStore, 0⟩ ∧
    findById (deleteUserHandler (some ⟨1, "admin", Role.admin⟩) 1 sampleStore).store 1
      = some adminRec :=
  C5_self_delete_rejected ⟨1, "admin", Role.admin⟩ 1 sampleStore adminRec
    rfl (by decide) rfl

/-- C6: across every operation that can return user representations —
register, login, whoami, list users, get user, create user, update user,
delete user, and the dashboard — every user object in the response body has
an absent password field. -/
theorem C6_no_credential_leaves (tok : Option Claims) (rb : RegisterBody)
    (lb : LoginBody) (cb : CreateBody) (ub : UpdateBody) (uid salt now : Nat)
    (s : Store) :
    (∀ u ∈ (registerHandler rb salt now s).resp.users, u.password = none) ∧
    (∀ u ∈ (loginHandler lb s).resp.users, u.password = none) ∧
    (∀ u ∈ (meHandler tok s).resp.users, u.password = none) ∧
    (∀ u ∈ (listUsersHandler tok s).resp.users, u.password = none) ∧
    (∀ u ∈ (getUserHandler tok uid s).resp.users, u.password = none) ∧
    (∀ u ∈ (createUserHandler tok cb salt now s).resp.users, u.password = none) ∧
    (∀ u ∈ (updateUserHandler tok uid ub salt now s).resp.users, u.password = none) ∧
    (∀ u ∈ (deleteUserHandler tok uid s).resp.users, u.password = none) ∧
    (∀ u ∈ (dashboardHandler s).resp.users, u.password = none) := by
  refine ⟨?_, ?_, ?_, ?_, ?_, ?_, ?_, ?_, ?_⟩ <;> intro u hu
  · unfold registerHandler at hu
    split_ifs at hu <;> simp [mkResp] at hu
    subst hu; rfl
  · unfold loginHandler at hu
    split_ifs at hu
    · simp [mkResp] at hu
    · rcases hfind : findByUsername s lb.username with _ | w <;>
        simp only [hfind, mkResp] at hu
      · simp at hu
      · split_ifs at hu <;> simp at hu
        subst hu; rfl
  · unfold meHandler at hu
    rcases tok with _ | c
    · simp [mkResp] at hu
    · rcases hfind : findById s c.id with _ | w <;> simp [hfind, mkResp] at hu
      subst hu; rfl
  · unfold listUsersHandler at hu
    rcases hg : gate Role.admin tok with c | _ | _ <;>
      simp [hg, mkResp, getAllUsers, List.mem_map] at hu
    rcases hu with ⟨w, _, hw⟩
    subst hw; rfl
  · unfold getUserHandler at hu
    rcases hg : gate Role.admin tok with c | _ | _ <;> simp only [hg] at hu
    · rcases hfind : findById s uid with _ | w <;> simp [hfind, mkResp] at hu
      subst hu; rfl
    · simp [mkResp] at hu
    · simp [mkResp] at hu
  · unfold createUserHandler at hu
    rcases hg : gate Role.admin tok with c | _ | _ <;> simp only [hg] at hu
    · split_ifs at hu <;> simp [mkResp, createUser] at hu
      subst hu; rfl
    · simp [mkResp] at hu
    · simp [mkResp] at hu
  · unfold updateUserHandler at hu
    rcases hg : gate Role.admin tok with c | _ | _ <;> simp only [hg] at hu
    · rcases hfind : findById s uid with _ | w <;> simp only [hfind] at hu <;>
        rcases hrr : ub.role with _ | r <;> (try simp only [hrr] at hu) <;>
        (try split_ifs at hu) <;> simp [mkResp] at hu <;>
        (obtain ⟨w', hw1, hw2⟩ := hu; subst hw2; rfl)
    · simp [mkResp] at hu
    · simp [mkResp] at hu
  · unfold deleteUserHandler at hu
    rcases hg : gate Role.admin tok with c | _ | _ <;> simp only [hg] at hu
    · rcases hfind : findById s uid with _ | w <;> simp only [hfind] at hu
      · simp [mkResp] at hu
      · split_ifs at hu <;> simp [mkResp] at hu
    · simp [mkResp] at hu
    · simp [mkResp] at hu
  · simp [dashboardHandler] at hu

theorem C6_no_credential_leaves_witness :
    (∀ u ∈ (registerHandler ⟨"alice", "alice@x.com", "secret11", none⟩
        5 10 sampleStore).resp.users, u.password = none) ∧
    (∀ u ∈ (loginHandler ⟨"john_doe", "password123"⟩ sampleStore).resp.users,
        u.password = none) ∧
    (∀ u ∈ (meHandler (some ⟨1, "admin", Role.admin⟩) sampleStore).resp.users,
        u.password = none) ∧
    (∀ u ∈ (listUsersHandler (some ⟨1, "admin", Role.admin⟩) sampleStore).resp.users,
        u.password = none) ∧
    (∀ u ∈ (getUserHandler (some ⟨1, "admin", Role.admin⟩) 2 sampleStore).resp.users,
        u.password = none) ∧
    (∀ u ∈ (createUserHandler (some ⟨1, "admin", Role.admin⟩)
        ⟨"carol", "carol@x.com", "secret22", Role.admin⟩ 5 10 sampleStore).resp.users,
        u.password = none) ∧
    (∀ u ∈ (updateUserHandler (some ⟨1, "admin", Role.admin⟩) 2
        ⟨some "johnny", none, none, none⟩ 5 10 sampleStore).resp.users,
        u.password = none) ∧
    (∀ u ∈ (deleteUserHandler (some ⟨1, "admin", Role.admin⟩) 2 sampleStore).resp.users,
        u.password = none) ∧
    (∀ u ∈ (dashboardHandler sampleStore).resp.users, u.password = none) :=
  C6_no_credential_leaves (some ⟨1, "admin", Role.admin⟩)
    ⟨"alice", "alice@x.com", "secret11", none⟩ ⟨"john_doe", "password123"⟩
    ⟨"carol", "carol@x.com", "secret22", Role.admin⟩
    ⟨some "johnny", none, none, none⟩ 2 5 10 sampleStore

/-- C7: a login whose username matches no user and a login whose username
exists but whose password fails verification produce responses that are
equal — same 400 status, same generic message, no user data and no token in
either — so neither reveals whether the username exists. -/
theorem C7_login_failures_indistinguishable (b1 b2 : LoginBody) (s : Store)
    (u : UserRec)
    (hu1 : b1.username ≠ "") (hp1 : b1.password ≠ "")
    (hu2 : b2.username ≠ "") (hp2 : b2.password ≠ "")
    (h1 : findByUsername s b1.username = none)
    (h2 : findByUsername s b2.username = some u)
    (hpw : checkPassword u b2.password = false) :
    (loginHandler b1 s).resp = (loginHandler b2 s).resp ∧
    (loginHandler b1 s).resp = mkResp 400 "Invalid username or password" := by
  unfold loginHandler
  simp [h1, h2, hpw, hu1, hp1, hu2, hp2]

theorem C7_login_failures_indistinguishable_witness :
    (loginHandler ⟨"ghost", "whatever"⟩ sampleStore).resp
      = (loginHandler ⟨"john_doe", "wrongpass"⟩ sampleStore).resp ∧
    (loginHandler ⟨"ghost", "whatever"⟩ sampleStore).resp
      = mkResp 400 "Invalid username or password" :=
  C7_login_failures_indistinguishable ⟨"ghost", "whatever"⟩
    ⟨"john_doe", "wrongpass"⟩ sampleStore johnRec
    (by decide) (by decide) (by decide) (by decide)
    (by decide) (by decide) (by decide)

/-- C8: a registration whose username or email collides with an existing
user fails with 400, performs zero hash computations (the collision checks
short-circuit before the hashing step), and leaves the store exactly as it
was — registering the same username twice leaves the first user untouched. -/
theorem C8_duplicate_register_short_circuits (b : RegisterBody) (salt now : Nat)
    (s : Store)
    (hdup : (findByUsername s b.username).isSome = true ∨
            (findByEmail s b.email).isSome = true) :
    (registerHandler b salt now s).resp.status = 400 ∧
    (registerHandler b salt now s).store = s ∧
    (registerHandler b salt now s).hashCount = 0 := by
  unfold registerHandler
  split_ifs with h1 h2 h3
  · exact ⟨rfl, rfl, rfl⟩
  · exact ⟨rfl, rfl, rfl⟩
  · exact ⟨rfl, rfl, rfl⟩
  · rcases hdup with h | h
    · exact absurd h h2
    · exact absurd h h3

theorem C8_duplicate_register_short_circuits_witness :
    (registerHandler ⟨"alice", "alice2@x.com", "secret33", none⟩ 9 20
        (registerHandler ⟨"alice", "alice@x.com", "secret11", none⟩ 5 10 []).store).resp.status = 400 ∧
    (registerHandler ⟨"alice", "alice2@x.com", "secret33", none⟩ 9 20
        (registerHandler ⟨"alice", "alice@x.com", "secret11", none⟩ 5 10 []).store).store
      = (registerHandler ⟨"alice", "alice@x.com", "secret11", none⟩ 5 10 []).store ∧
    (registerHandler ⟨"alice", "alice2@x.com", "secret33", none⟩ 9 20
        (registerHandler ⟨"alice", "alice@x.com", "secret11", none⟩ 5 10 []).store).hashCount = 0 :=
  C8_duplicate_register_short_circuits ⟨"alice", "alice2@x.com", "secret33", none⟩ 9 20
    (registerHandler ⟨"alice", "alice@x.com", "secret11", none⟩ 5 10 []).store
    (Or.inl (by decide))

/-- C9: for every salt, verifying P against the credential produced by
hashing P succeeds, and verifying any Q ≠ P against that credential fails
(in the spec-modelled hasher the mismatch is certain rather than merely
overwhelmingly probable). -/
theorem C9_verify_roundtrip (salt : Nat) (p q : String) (hne : q ≠ p) :
    bcryptCompare p (bcryptHash salt p) = true ∧
    bcryptCompare q (bcryptHash salt p) = false := by
  constructor
  · simp [bcryptCompare, bcryptHash]
  · simp [bcryptCompare, bcryptHash, Credential.mk.injEq]
    intro h
    exact absurd h hne

theorem C9_verify_roundtrip_witness :
    bcryptCompare "hunter77" (bcryptHash 12 "hunter77") = true ∧
    bcryptCompare "hunter78" (bcryptHash 12 "hunter77") = false :=
  C9_verify_roundtrip 12 "hunter77" "hunter78" (by decide)

/-- C10: the dashboard endpoint takes no token and no authentication of any
kind, yet its response reports the exact number of users in the store —
while the user-listing operation answers 401 without a token. -/
theorem C10_dashboard_leaks_user_count (s : Store) :
    (dashboardHandler s).resp.status = 200 ∧
    (dashboardHandler s).resp.totalUsers = some s.length ∧
    (listUsersHandler none s).resp.status = 401 := by
  refine ⟨rfl, ?_, rfl⟩
  simp [dashboardHandler, getAllUsers]

end UMS
